import Mathlib

/-!
Verification development for the artifact loading & caching engine of the
model-node template (`src/templates/model-node/src/{{NodeNameLower}}.py`).

The Python class is shallowly embedded: the mutable per-instance dictionaries
`model_cache` / `model_metadata` become an explicit `State` threaded through
`load_model`; the runtime environment (filesystem probes, torch capability
probes, the four format-specific loaders, the memory-optimization pass) is a
record of functions `Env`; Python exceptions inside the `try` body are an
`Except String` layer that the outer handler of `load_model` discharges.
Machine-level pieces (`hashlib.md5`, UTF-8 encoding of `str.encode()`) are
implemented bit-faithfully over `Nat` with explicit reduction mod 2^32.
-/

namespace ComfyModelNode

/-! ### UTF-8 encoding (`str.encode()`) -/

/-- UTF-8 bytes of one code point, as in CPython's `str.encode()`. -/
def utf8Char (c : Char) : List Nat :=
  let n := c.toNat
  if n < 128 then [n]
  else if n < 2048 then
    [192 ||| (n >>> 6), 128 ||| (n &&& 63)]
  else if n < 65536 then
    [224 ||| (n >>> 12), 128 ||| ((n >>> 6) &&& 63), 128 ||| (n &&& 63)]
  else
    [240 ||| (n >>> 18), 128 ||| ((n >>> 12) &&& 63),
     128 ||| ((n >>> 6) &&& 63), 128 ||| (n &&& 63)]

/-- UTF-8 byte sequence of a string. -/
def utf8Bytes (s : String) : List Nat :=
  (s.data.map utf8Char).flatten

/-! ### MD5 (`hashlib.md5(...).hexdigest()`), bit-faithful over `Nat` -/

/-- 32-bit left rotation. -/
def leftrotate (x n : Nat) : Nat :=
  ((x <<< n) ||| (x >>> (32 - n))) % 4294967296

/-- The 64 MD5 sine-derived constants (RFC 1321 table T). -/
def md5K : List Nat :=
  [0xd76aa478, 0xe8c7b756, 0x242070db, 0xc1bdceee,
   0xf57c0faf, 0x4787c62a, 0xa8304613, 0xfd469501,
   0x698098d8, 0x8b44f7af, 0xffff5bb1, 0x895cd7be,
   0x6b901122, 0xfd987193, 0xa679438e, 0x49b40821,
   0xf61e2562, 0xc040b340, 0x265e5a51, 0xe9b6c7aa,
   0xd62f105d, 0x02441453, 0xd8a1e681, 0xe7d3fbc8,
   0x21e1cde6, 0xc33707d6, 0xf4d50d87, 0x455a14ed,
   0xa9e3e905, 0xfcefa3f8, 0x676f02d9, 0x8d2a4c8a,
   0xfffa3942, 0x8771f681, 0x6d9d6122, 0xfde5380c,
   0xa4beea44, 0x4bdecfa9, 0xf6bb4b60, 0xbebfbc70,
   0x289b7ec6, 0xeaa127fa, 0xd4ef3085, 0x04881d05,
   0xd9d4d039, 0xe6db99e5, 0x1fa27cf8, 0xc4ac5665,
   0xf4292244, 0x432aff97, 0xab9423a7, 0xfc93a039,
   0x655b59c3, 0x8f0ccc92, 0xffeff47d, 0x85845dd1,
   0x6fa87e4f, 0xfe2ce6e0, 0xa3014314, 0x4e0811a1,
   0xf7537e82, 0xbd3af235, 0x2ad7d2bb, 0xeb86d391]

/-- The per-round left-rotation amounts. -/
def md5S : List Nat :=
  [7, 12, 17, 22, 7, 12, 17, 22, 7, 12, 17, 22, 7, 12, 17, 22,
   5, 9, 14, 20, 5, 9, 14, 20, 5, 9, 14, 20, 5, 9, 14, 20,
   4, 11, 16, 23, 4, 11, 16, 23, 4, 11, 16, 23, 4, 11, 16, 23,
   6, 10, 15, 21, 6, 10, 15, 21, 6, 10, 15, 21, 6, 10, 15, 21]

/-- Round-dependent nonlinear function (F, G, H, I by quarter). -/
def md5F (i b c d : Nat) : Nat :=
  if i < 16 then (b &&& c) ||| ((4294967295 ^^^ b) &&& d)
  else if i < 32 then (d &&& b) ||| ((4294967295 ^^^ d) &&& c)
  else if i < 48 then b ^^^ c ^^^ d
  else c ^^^ (b ||| (4294967295 ^^^ d))

/-- Round-dependent message-word index. -/
def md5G (i : Nat) : Nat :=
  if i < 16 then i
  else if i < 32 then (5 * i + 1) % 16
  else if i < 48 then (3 * i + 5) % 16
  else (7 * i) % 16

/-- Little-endian byte decomposition of `x` into `n` bytes. -/
def toLEBytes (x n : Nat) : List Nat :=
  (List.range n).map (fun i => (x >>> (8 * i)) % 256)

/-- MD5 padding: append 0x80, zero-fill to 56 mod 64, append 64-bit LE bit length. -/
def md5Pad (msg : List Nat) : List Nat :=
  let len := msg.length
  let k := (56 - (len + 1) % 64 + 64) % 64
  msg ++ [128] ++ List.replicate k 0 ++ toLEBytes ((len * 8) % 18446744073709551616) 8

/-- Split into successive 64-byte chunks, driven by a fuel counter. -/
def chunksAux : Nat → List Nat → List (List Nat)
  | 0, _ => []
  | Nat.succ k, l => l.take 64 :: chunksAux k (l.drop 64)

def chunks64 (l : List Nat) : List (List Nat) :=
  chunksAux (l.length / 64) l

/-- The `g`-th little-endian 32-bit word of a 64-byte chunk. -/
def wordAt (chunk : List Nat) (g : Nat) : Nat :=
  chunk.getD (4 * g) 0 + 256 * chunk.getD (4 * g + 1) 0 +
    65536 * chunk.getD (4 * g + 2) 0 + 16777216 * chunk.getD (4 * g + 3) 0

/-- The 64 MD5 rounds on one 512-bit chunk. -/
def md5Rounds (chunk : List Nat) (st : Nat × Nat × Nat × Nat) : Nat × Nat × Nat × Nat :=
  (List.range 64).foldl
    (fun abcd i =>
      let (a, b, c, d) := abcd
      let f := (md5F i b c d + a + md5K.getD i 0 + wordAt chunk (md5G i)) % 4294967296
      (d, (b + leftrotate f (md5S.getD i 0)) % 4294967296, b, c))
    st

/-- MD5 digest of a byte sequence, as the four 32-bit state words. -/
def md5Digest (msg : List Nat) : Nat × Nat × Nat × Nat :=
  (chunks64 (md5Pad msg)).foldl
    (fun acc chunk =>
      let (a0, b0, c0, d0) := acc
      let (a, b, c, d) := md5Rounds chunk (a0, b0, c0, d0)
      ((a0 + a) % 4294967296, (b0 + b) % 4294967296,
       (c0 + c) % 4294967296, (d0 + d) % 4294967296))
    (1732584193, 4023233417, 2562383102, 271733878)

/-- Lower-case hex digit. -/
def hexDigit (n : Nat) : Char :=
  if n < 10 then Char.ofNat (48 + n) else Char.ofNat (87 + n)

/-- Two hex digits of one byte. -/
def byteHex (b : Nat) : List Char :=
  [hexDigit (b / 16), hexDigit (b % 16)]

/-- Hex rendering of a 32-bit word, little-endian byte order (as MD5 prints). -/
def wordLEHex (w : Nat) : List Char :=
  ((toLEBytes w 4).map byteHex).flatten

/-- `hashlib.md5(msg).hexdigest()`. -/
def md5Hex (msg : List Nat) : String :=
  let (a, b, c, d) := md5Digest msg
  ⟨wordLEHex a ++ wordLEHex b ++ wordLEHex c ++ wordLEHex d⟩

/-! ### Minimal JSON parser for flat objects (`json.loads` on config texts)

`json.loads` is a library call; we embed the fragment of it the configs of
this node exercise: a single flat object whose values are integers, strings,
booleans or null.  Anything outside that fragment parses to `none` and the
caller degrades to the empty config, exactly as a `JSONDecodeError` does. -/

inductive JVal
  | jInt : Int → JVal
  | jStr : String → JVal
  | jBool : Bool → JVal
  | jNull : JVal
deriving DecidableEq, Repr

/-- A parsed flat JSON object, in serialization order. -/
abbrev Config := List (String × JVal)

def lbrace : Char := Char.ofNat 123

def rbrace : Char := Char.ofNat 125

def skipWs : List Char → List Char
  | c :: rest =>
    if c = ' ' ∨ c = '\t' ∨ c = '\n' ∨ c = '\r' then skipWs rest else c :: rest
  | [] => []

/-- Parse a string literal body after the opening quote (no escape support;
an escape makes the whole config degrade like a decode error would). -/
def parseStringLit : List Char → Option (String × List Char)
  | [] => none
  | c :: rest =>
    if c = '"' then some ("", rest)
    else if c = '\\' then none
    else match parseStringLit rest with
      | some (s, r) => some (⟨c :: s.data⟩, r)
      | none => none

def parseNatLit : List Char → Nat → Nat × List Char
  | c :: rest, acc =>
    if c.isDigit then parseNatLit rest (acc * 10 + (c.toNat - 48)) else (acc, c :: rest)
  | [], acc => (acc, [])

def parseJVal (l : List Char) : Option (JVal × List Char) :=
  match l with
  | [] => none
  | c :: rest =>
    if c = '"' then (parseStringLit rest).map (fun p => (JVal.jStr p.1, p.2))
    else if c = '-' then
      match rest with
      | d :: _ =>
        if d.isDigit then
          let p := parseNatLit rest 0
          some (JVal.jInt (-(p.1 : Int)), p.2)
        else none
      | [] => none
    else if c.isDigit then
      let p := parseNatLit l 0
      some (JVal.jInt (p.1 : Int), p.2)
    else if l.take 4 = ['t', 'r', 'u', 'e'] then some (JVal.jBool true, l.drop 4)
    else if l.take 5 = ['f', 'a', 'l', 's', 'e'] then some (JVal.jBool false, l.drop 5)
    else if l.take 4 = ['n', 'u', 'l', 'l'] then some (JVal.jNull, l.drop 4)
    else none

/-- Parse `"key": value` members separated by commas, ending at the closing
brace; `fuel` bounds the recursion. -/
def parseMembers : Nat → List Char → Option (Config × List Char)
  | 0, _ => none
  | Nat.succ fuel, l =>
    match skipWs l with
    | q :: rest =>
      if q = '"' then
        match parseStringLit rest with
        | some (key, r1) =>
          match skipWs r1 with
          | colon :: r2 =>
            if colon = ':' then
              match parseJVal (skipWs r2) with
              | some (v, r3) =>
                match skipWs r3 with
                | sep :: r4 =>
                  if sep = ',' then
                    match parseMembers fuel r4 with
                    | some (rest', r5) => some ((key, v) :: rest', r5)
                    | none => none
                  else if sep = rbrace then some ([(key, v)], r4)
                  else none
                | [] => none
              | none => none
            else none
          | [] => none
        | none => none
      else none
    | [] => none

/-- Parse a complete flat JSON object with nothing but whitespace around it. -/
def parseFlatJson (s : String) : Option Config :=
  match skipWs s.data with
  | c :: rest =>
    if c = lbrace then
      match skipWs rest with
      | d :: rest2 =>
        if d = rbrace then
          match skipWs rest2 with
          | [] => some []
          | _ => none
        else
          match parseMembers (s.length + 1) (d :: rest2) with
          | some (cfg, r) =>
            match skipWs r with
            | [] => some cfg
            | _ => none
          | none => none
      | [] => none
    else none
  | [] => none

/-- `config = json.loads(model_config) if model_config else {}` with
`JSONDecodeError` degrading to the empty config. -/
def parseConfig (s : String) : Config :=
  if s = "" then [] else (parseFlatJson s).getD []

/-- Two config texts denote the same key-value mapping: both parse as flat
JSON objects and every member of each agrees with the lookup in the other. -/
def sameMappingB (c1 c2 : String) : Bool :=
  match parseFlatJson c1, parseFlatJson c2 with
  | some m1, some m2 =>
    m1.all (fun p => List.lookup p.1 m2 == some p.2) &&
      m2.all (fun p => List.lookup p.1 m1 == some p.2)
  | _, _ => false

def sameMapping (c1 c2 : String) : Prop :=
  sameMappingB c1 c2 = true

instance (c1 c2 : String) : Decidable (sameMapping c1 c2) :=
  inferInstanceAs (Decidable (sameMappingB c1 c2 = true))

/-! ### Path shape helpers (`pathlib.PurePosixPath` fragment) -/

/-- Split a character list at `'/'` separators. -/
def splitOnSlash : List Char → List (List Char)
  | [] => [[]]
  | c :: rest =>
    match splitOnSlash rest with
    | [] => [[]]
    | seg :: segs => if c = '/' then [] :: seg :: segs else (c :: seg) :: segs

/-- `Path(p).name`: the final nonempty path component. -/
def pathName (p : String) : String :=
  ⟨((splitOnSlash p.data).filter (fun s => s ≠ [])).getLastD []⟩

/-- `Path(p).suffix`: from the last dot of the name, when that dot is neither
the first nor the last character of the name. -/
def pathSuffix (p : String) : String :=
  let cs := (pathName p).data
  match cs.reverse.findIdx? (fun c => c = '.') with
  | none => ""
  | some j =>
    let i := cs.length - 1 - j
    if 0 < i ∧ i < cs.length - 1 then ⟨cs.drop i⟩ else ""

/-- `dir / name` for a POSIX path. -/
def joinPath (dir name : String) : String :=
  if dir.data.getLastD ' ' = '/' then dir ++ name else dir ++ "/" ++ name

/-! ### Data model -/

/-- `torch.dtype` values the node can select. -/
inductive Dtype
  | float32
  | float16
  | bfloat16
deriving DecidableEq, Repr

/-- `str(torch.float16)` and friends. -/
def dtypeStr : Dtype → String
  | .float32 => "torch.float32"
  | .float16 => "torch.float16"
  | .bfloat16 => "torch.bfloat16"

/-- Values appearing in the metadata dictionary.  `vSizeMB n` carries the raw
`os.path.getsize` byte count that the source divides by 1024*1024; `vMemGB n`
carries the raw byte count the source divides by 1024^3; `vTensor` is the
`torch.tensor([0.0])` timestamp placeholder.  Carrying the exact byte counts
keeps equality of metadata records faithful without floating point. -/
inductive MVal
  | vB : Bool → MVal
  | vS : String → MVal
  | vSizeMB : Nat → MVal
  | vTensor : MVal
  | vMemGB : Nat → MVal
deriving DecidableEq, Repr

/-- The metadata dictionary, in insertion order. -/
abbrev Metadata := List (String × MVal)

/-- Opaque artifact handle: loaded models are uninterpreted tokens. -/
abbrev Model := Nat

/-- The runtime environment the node consults: filesystem probes, torch
capability probes, the four format-specific loaders and the best-effort
memory-optimization pass.  Each loader returns either `.error msg` (the
exception it raises, e.g. `ImportError("safetensors package not installed")`)
or `.ok (handle?, info)`; `optimizeModel` abstracts
`_apply_memory_optimizations`, which swallows its own failures and always
hands back a model. -/
structure Env where
  pathExists : String → Bool
  isDir : String → Bool
  cudaAvailable : Bool
  hasMpsBackend : Bool
  mpsAvailable : Bool
  getsize : String → Nat
  cudaMemAllocated : Nat
  cudaMemReserved : Nat
  loadSafetensors : String → String → Dtype → Except String (Option Model × String)
  loadCheckpoint : String → String → Dtype → Except String (Option Model × String)
  loadDiffusers : String → String → Dtype → Config → Except String (Option Model × String)
  loadOnnx : String → Config → Except String (Option Model × String)
  optimizeModel : Model → String → Model

/-- The arguments of `load_model` (the `ArtifactRequest`). -/
structure Args where
  model_path : String
  model_type : String
  device : String
  precision : String
  cache_enabled : Bool
  optimize_memory : Bool
  model_config : String
  force_reload : Bool
deriving Repr

/-- The per-instance mutable dictionaries `self.model_cache` and
`self.model_metadata`, as insertion-ordered association lists. -/
structure State where
  model_cache : List (String × Model)
  model_metadata : List (String × Metadata)
deriving DecidableEq, Repr

/-- The state of a freshly constructed node (`__init__`). -/
def State.init : State := ⟨[], []⟩

/-- Python dict update: replace in place when the key exists, else append. -/
def dictInsert (k : String) (v : α) : List (String × α) → List (String × α)
  | [] => [(k, v)]
  | (k', v') :: rest => if k' = k then (k, v) :: rest else (k', v') :: dictInsert k v rest

/-- Everything a call to `load_model` produces: the updated instance state,
the returned `(model, model_info, metadata)` triple, and how many times the
loader dispatch `_load_model_by_type` was entered (0 or 1). -/
structure LoadResult where
  state : State
  model : Option Model
  model_info : String
  metadata : Metadata
  loaderCalls : Nat
deriving DecidableEq, Repr

/-! ### Component functions of the node -/

/-- `_generate_cache_key`: MD5 hex digest of `f"{path}:{device}:{precision}:{config}"`. -/
def _generate_cache_key (model_path device precision config : String) : String :=
  md5Hex (utf8Bytes (model_path ++ ":" ++ device ++ ":" ++ precision ++ ":" ++ config))

/-- `_determine_device`: `auto` probes cuda then mps then cpu; anything else
is echoed unchanged. -/
def _determine_device (env : Env) (device : String) : String :=
  if device = "auto" then
    if env.cudaAvailable then "cuda"
    else if env.hasMpsBackend ∧ env.mpsAvailable then "mps"
    else "cpu"
  else device

/-- `_determine_precision`: `auto` is float16 exactly when cuda is available;
explicit float16/bfloat16 pass through; everything else is float32. -/
def _determine_precision (env : Env) (precision : String) : Dtype :=
  if precision = "auto" then
    if env.cudaAvailable then Dtype.float16 else Dtype.float32
  else if precision = "float16" then Dtype.float16
  else if precision = "bfloat16" then Dtype.bfloat16
  else Dtype.float32

/-- `_detect_model_type`: suffix rules, then the diffusers directory probe,
then the `"checkpoint"` fallback. -/
def _detect_model_type (env : Env) (model_path : String) : String :=
  let sfx := pathSuffix model_path
  if sfx = ".safetensors" then "safetensors"
  else if sfx = ".ckpt" ∨ sfx = ".pth" ∨ sfx = ".pt" then "checkpoint"
  else if sfx = ".onnx" then "onnx"
  else if env.isDir model_path then
    if env.pathExists (joinPath model_path "model_index.json") then "diffusers"
    else "checkpoint"
  else "checkpoint"

/-- `_load_model_by_type`: dispatch on the format tag; an unknown tag raises
`ValueError(f"Unsupported model type: {model_type}")`. -/
def _load_model_by_type (env : Env) (model_path model_type device : String)
    (dtype : Dtype) (config : Config) : Except String (Option Model × String) :=
  if model_type = "safetensors" then env.loadSafetensors model_path device dtype
  else if model_type = "checkpoint" then env.loadCheckpoint model_path device dtype
  else if model_type = "diffusers" then env.loadDiffusers model_path device dtype config
  else if model_type = "onnx" then env.loadOnnx model_path config
  else Except.error ("Unsupported model type: " ++ model_type)

/-- `_apply_memory_optimizations`: best-effort transformation of the handle;
its internal failures are swallowed, so it is a total function of the
handle and device. -/
def _apply_memory_optimizations (env : Env) (model : Model) (device : String) : Model :=
  env.optimizeModel model device

/-- `_generate_metadata`: the success-path metadata dictionary, with the two
cuda memory figures appended when the resolved device is `"cuda"`. -/
def _generate_metadata (env : Env) (model_path model_type device : String)
    (dtype : Dtype) : Metadata :=
  let metadata : Metadata :=
    [("model_path", MVal.vS model_path),
     ("model_type", MVal.vS model_type),
     ("device", MVal.vS device),
     ("dtype", MVal.vS (dtypeStr dtype)),
     ("file_size_mb", MVal.vSizeMB (env.getsize model_path)),
     ("load_timestamp", MVal.vTensor),
     ("success", MVal.vB true)]
  if device = "cuda" then
    metadata ++ [("cuda_memory_allocated", MVal.vMemGB env.cudaMemAllocated),
                 ("cuda_memory_reserved", MVal.vMemGB env.cudaMemReserved)]
  else metadata

/-- The `try` body of `load_model`; a `.error` is an exception reaching the
outer handler.  Exceptions can only originate at the loader dispatch, so a
`.error` leaves the instance state unchanged (no mutation precedes it). -/
def loadModelBody (env : Env) (st : State) (a : Args) : Except String LoadResult :=
  if a.model_path == "" || !env.pathExists a.model_path then
    Except.ok ⟨st, none, "Model file not found: " ++ a.model_path,
               [("error", MVal.vS "file_not_found")], 0⟩
  else
    let cache_key := _generate_cache_key a.model_path a.device a.precision a.model_config
    if a.cache_enabled && !a.force_reload &&
        (List.lookup cache_key st.model_cache).isSome then
      Except.ok ⟨st, List.lookup cache_key st.model_cache, "Model loaded from cache",
                 (List.lookup cache_key st.model_metadata).getD [], 0⟩
    else
      let config := parseConfig a.model_config
      let target_device := _determine_device env a.device
      let target_dtype := _determine_precision env a.precision
      let mt := if a.model_type = "auto" then _detect_model_type env a.model_path
                else a.model_type
      match _load_model_by_type env a.model_path mt target_device target_dtype config with
      | Except.error e => Except.error e
      | Except.ok (model0, model_info) =>
        let model := if a.optimize_memory && model0.isSome then
            model0.map (fun m => _apply_memory_optimizations env m target_device)
          else model0
        let metadata := _generate_metadata env a.model_path mt target_device target_dtype
        let st' : State := match model with
          | some m =>
            if a.cache_enabled then
              ⟨dictInsert cache_key m st.model_cache,
               dictInsert cache_key metadata st.model_metadata⟩
            else st
          | none => st
        Except.ok ⟨st', model, model_info, metadata, 1⟩

/-- `load_model`: the `try` body with the `except Exception` handler that
converts every raised fault into the structured failure triple. -/
def load_model (env : Env) (st : State) (a : Args) : LoadResult :=
  match loadModelBody env st a with
  | Except.ok r => r
  | Except.error e =>
    ⟨st, none, "Failed to load model: " ++ e,
     [("error", MVal.vS e), ("success", MVal.vB false)], 1⟩

/-! ### Concrete environments used to instantiate the theorems -/

/-- A runtime where every file exists, cuda is available and all four loaders
succeed with distinct handles. -/
def envAllOk : Env :=
  ⟨fun _ => true, fun _ => false, true, false, false,
   fun _ => 1048576, 0, 0,
   fun _ _ _ => Except.ok (some 1, "SafeTensors model loaded: 10 tensors"),
   fun _ _ _ => Except.ok (some 2, "Checkpoint loaded with 5 keys"),
   fun _ _ _ _ => Except.ok (some 3, "Diffusers pipeline loaded: DiffusionPipeline"),
   fun _ _ => Except.ok (some 4, "ONNX model loaded with 2 inputs"),
   fun m _ => m⟩

/-- A runtime with no cuda but a working mps backend. -/
def envMpsOnly : Env :=
  ⟨fun _ => true, fun _ => false, false, true, true,
   fun _ => 0, 0, 0,
   fun _ _ _ => Except.ok (none, ""),
   fun _ _ _ => Except.ok (none, ""),
   fun _ _ _ _ => Except.ok (none, ""),
   fun _ _ => Except.ok (none, ""),
   fun m _ => m⟩

/-- A runtime where no filesystem path exists. -/
def envNoFile : Env :=
  ⟨fun _ => false, fun _ => false, false, false, false,
   fun _ => 0, 0, 0,
   fun _ _ _ => Except.ok (none, ""),
   fun _ _ _ => Except.ok (none, ""),
   fun _ _ _ _ => Except.ok (none, ""),
   fun _ _ => Except.ok (none, ""),
   fun m _ => m⟩

/-- A runtime where every loader raises (missing dependencies, decode
failures). -/
def envLoadFail : Env :=
  ⟨fun _ => true, fun _ => false, false, false, false,
   fun _ => 0, 0, 0,
   fun _ _ _ => Except.error "safetensors package not installed",
   fun _ _ _ => Except.error "invalid load key",
   fun _ _ _ _ => Except.error "diffusers package not installed",
   fun _ _ => Except.error "onnxruntime package not installed",
   fun m _ => m⟩

/-- The two concrete config texts: the same two-member mapping, serialized in
the two field orders. -/
def cfgAB : String := "\x7b\"a\": 1, \"b\": 2\x7d"

def cfgBA : String := "\x7b\"b\": 2, \"a\": 1\x7d"

/-- The empty config text `"{}"`. -/
def cfgEmpty : String := "\x7b\x7d"

/-- The request used to instantiate the cache-idempotence claim. -/
def argsC3 : Args := ⟨"model.ckpt", "checkpoint", "cpu", "auto", true, true, cfgEmpty, false⟩

/-- The request phrased with the explicit accelerator. -/
def argsCudaExplicit : Args := ⟨"model.ckpt", "checkpoint", "cuda", "auto", true, true, cfgEmpty, false⟩

/-- The same request phrased with the `auto` device preference. -/
def argsDeviceAuto : Args := ⟨"model.ckpt", "checkpoint", "auto", "auto", true, true, cfgEmpty, false⟩

/-- The metadata table invariant: every key present in the cache table has a
stored metadata record carrying a `success` field. -/
def MetaInv (st : State) : Prop :=
  ∀ k, (List.lookup k st.model_cache).isSome = true →
    ∃ md, List.lookup k st.model_metadata = some md ∧
      (List.lookup "success" md).isSome = true

/-! ### Spec-side definitions for refinement claims -/

/-- The format rule table as the claim states it, in priority order:
`.safetensors`, then `.ckpt`/`.pth`/`.pt`, then `.onnx`, then a directory
with the index marker, then the `"checkpoint"` fallback. -/
def detectSpec (env : Env) (model_path : String) : String :=
  if pathSuffix model_path = ".safetensors" then "safetensors"
  else if pathSuffix model_path = ".ckpt" ∨ pathSuffix model_path = ".pth" ∨
      pathSuffix model_path = ".pt" then "checkpoint"
  else if pathSuffix model_path = ".onnx" then "onnx"
  else if env.isDir model_path ∧
      env.pathExists (joinPath model_path "model_index.json") then "diffusers"
  else "checkpoint"

/-! ### Helper lemmas on the dictionary model -/

theorem lookup_dictInsert (k : String) (v : α) (l : List (String × α)) :
    List.lookup k (dictInsert k v l) = some v := by
  induction l with
  | nil => simp [dictInsert, List.lookup]
  | cons p rest ih =>
    obtain ⟨k', v'⟩ := p
    by_cases h : k' = k
    · simp [dictInsert, h, List.lookup]
    · have hkk : (k == k') = false := beq_eq_false_iff_ne.mpr (Ne.symm h)
      simp [dictInsert, h, List.lookup, hkk, ih]

/-! ### Claim theorems -/

/-- Claim C10: a request with the empty path is treated exactly like a
nonexistent path: `load_model` returns the not-found triple with the empty
path appended, invokes no loader, and leaves both tables unchanged —
whatever the filesystem says about `""`. -/
theorem c10_empty_path (env : Env) (st : State) (a : Args)
    (h : a.model_path = "") :
    load_model env st a =
      ⟨st, none, "Model file not found: ",
       [("error", MVal.vS "file_not_found")], 0⟩ := by
  simp [load_model, loadModelBody, h]

/-- Witness for C10 at a concrete environment, state, and request. -/
theorem c10_empty_path_witness :
    load_model envAllOk State.init ⟨"", "auto", "auto", "auto", true, true, cfgEmpty, false⟩ =
      ⟨State.init, none, "Model file not found: ",
       [("error", MVal.vS "file_not_found")], 0⟩ :=
  c10_empty_path envAllOk State.init _ rfl

/-- Claim C9: on a cache hit (cache enabled, no forced reload, key present in
the cache table) the returned info string is the fixed text
`"Model loaded from cache"`, the handle is the cached handle, and the
metadata is replayed from the metadata table. -/
theorem c9_cache_hit_fixed_info (env : Env) (st : State) (a : Args) (m : Model)
    (hne : ¬ a.model_path = "") (hex : env.pathExists a.model_path = true)
    (hc : a.cache_enabled = true) (hf : a.force_reload = false)
    (hm : List.lookup (_generate_cache_key a.model_path a.device a.precision a.model_config)
        st.model_cache = some m) :
    load_model env st a =
      ⟨st, some m, "Model loaded from cache",
       (List.lookup (_generate_cache_key a.model_path a.device a.precision a.model_config)
         st.model_metadata).getD [], 0⟩ := by
  simp [load_model, loadModelBody, hne, hex, hc, hf, hm]

/-- Witness for C9: a state whose tables hold the key of the concrete
request replays the stored handle and metadata with the fixed info text. -/
theorem c9_cache_hit_fixed_info_witness :
    load_model envAllOk
      ⟨[(_generate_cache_key "model.ckpt" "cpu" "auto" cfgEmpty, 7)],
       [(_generate_cache_key "model.ckpt" "cpu" "auto" cfgEmpty, [("success", MVal.vB true)])]⟩
      ⟨"model.ckpt", "auto", "cpu", "auto", true, true, cfgEmpty, false⟩ =
      ⟨⟨[(_generate_cache_key "model.ckpt" "cpu" "auto" cfgEmpty, 7)],
        [(_generate_cache_key "model.ckpt" "cpu" "auto" cfgEmpty, [("success", MVal.vB true)])]⟩,
       some 7, "Model loaded from cache",
       (List.lookup (_generate_cache_key "model.ckpt" "cpu" "auto" cfgEmpty)
         [(_generate_cache_key "model.ckpt" "cpu" "auto" cfgEmpty, [("success", MVal.vB true)])]).getD [],
       0⟩ :=
  c9_cache_hit_fixed_info envAllOk _ _ 7 (by decide) rfl rfl rfl (by decide)

/-- Claim C7: format detection is a total function of the path and the
directory probe, and it follows the claimed rule table in priority order
(`.safetensors`, then `.ckpt`/`.pth`/`.pt`, then `.onnx`, then a directory
holding `model_index.json`, then the `"checkpoint"` fallback). -/
theorem c7_detect_follows_rule_table (env : Env) (p : String) :
    _detect_model_type env p = detectSpec env p := by
  unfold _detect_model_type detectSpec
  split_ifs <;> simp_all

/-- Claim C2, counterexample: with cuda unavailable but mps available, the
device preference `auto` resolves to the accelerator `"mps"`, yet the
precision preference `auto` resolves to float32, not the half precision the
claim requires on accelerators. -/
theorem c2_counterexample :
    _determine_device envMpsOnly "auto" = "mps" ∧
    _determine_precision envMpsOnly "auto" ≠ Dtype.float16 := by
  exact ⟨rfl, by decide⟩

/-- Claim C2 as amended: explicit preferences pass through unchanged, and
`auto` resolves to float16 exactly when the cuda probe reports available —
independently of the resolved device. -/
theorem c2_amended_precision_policy (env : Env) (precision : String) :
    (precision = "float32" → _determine_precision env precision = Dtype.float32) ∧
    (precision = "float16" → _determine_precision env precision = Dtype.float16) ∧
    (precision = "bfloat16" → _determine_precision env precision = Dtype.bfloat16) ∧
    (precision = "auto" →
      _determine_precision env precision =
        if env.cudaAvailable then Dtype.float16 else Dtype.float32) := by
  refine ⟨?_, ?_, ?_, ?_⟩ <;> rintro rfl <;> simp [_determine_precision]

/-- Witness for the amended C2 at a concrete environment and preference. -/
theorem c2_amended_precision_policy_witness :
    _determine_precision envMpsOnly "auto" =
      if envMpsOnly.cudaAvailable then Dtype.float16 else Dtype.float32 :=
  (c2_amended_precision_policy envMpsOnly "auto").2.2.2 rfl

/-- Claim C1, counterexample: `cfgAB` and `cfgBA` denote the same key-value
mapping, serialized in the two field orders, yet `_generate_cache_key`
produces different keys — the config is hashed raw, not canonicalized. -/
theorem c1_counterexample :
    sameMapping cfgAB cfgBA ∧ cfgAB ≠ cfgBA ∧
    _generate_cache_key "model.ckpt" "cpu" "auto" cfgAB ≠
      _generate_cache_key "model.ckpt" "cpu" "auto" cfgBA := by
  refine ⟨?_, ?_, ?_⟩ <;> decide

/-- Claim C1 as amended: the key is a function of the raw config text —
equal texts always give equal keys — while texts denoting the same mapping
in a different field order can give different keys. -/
theorem c1_amended_raw_text_key (path device precision c1 c2 : String)
    (h : c1 = c2) :
    _generate_cache_key path device precision c1 =
      _generate_cache_key path device precision c2 ∧
    ∃ d1 d2 : String, sameMapping d1 d2 ∧ d1 ≠ d2 ∧
      _generate_cache_key "model.ckpt" "cpu" "auto" d1 ≠
        _generate_cache_key "model.ckpt" "cpu" "auto" d2 := by
  exact ⟨by rw [h], cfgAB, cfgBA, by decide, by decide, by decide⟩

/-- Witness for the amended C1 at concrete texts. -/
theorem c1_amended_raw_text_key_witness :
    _generate_cache_key "model.ckpt" "cpu" "auto" cfgAB =
      _generate_cache_key "model.ckpt" "cpu" "auto" cfgAB ∧
    ∃ d1 d2 : String, sameMapping d1 d2 ∧ d1 ≠ d2 ∧
      _generate_cache_key "model.ckpt" "cpu" "auto" d1 ≠
        _generate_cache_key "model.ckpt" "cpu" "auto" d2 :=
  c1_amended_raw_text_key "model.ckpt" "cpu" "auto" cfgAB cfgAB rfl

/-- A successful `loadModelBody` run whose triple carries no handle has not
touched the instance state: no mutation precedes any failure point. -/
theorem loadModelBody_none_state (env : Env) (st : State) (a : Args)
    (r : LoadResult) (hb : loadModelBody env st a = Except.ok r)
    (hm : r.model = none) : r.state = st := by
  cases h1 : (a.model_path == "" || !env.pathExists a.model_path) with
  | true =>
    simp [loadModelBody, h1] at hb
    subst hb; rfl
  | false =>
    cases h2 : (a.cache_enabled && !a.force_reload &&
        (List.lookup (_generate_cache_key a.model_path a.device a.precision a.model_config)
          st.model_cache).isSome) with
    | true =>
      simp [loadModelBody, h1, h2] at hb
      subst hb; rfl
    | false =>
      cases hd : _load_model_by_type env a.model_path
          (if a.model_type = "auto" then _detect_model_type env a.model_path else a.model_type)
          (_determine_device env a.device) (_determine_precision env a.precision)
          (parseConfig a.model_config) with
      | error e => simp [loadModelBody, h1, h2, hd] at hb
      | ok p =>
        obtain ⟨model0, info0⟩ := p
        cases model0 with
        | none =>
          simp [loadModelBody, h1, h2, hd] at hb
          subst hb; rfl
        | some m0 =>
          cases h3 : a.optimize_memory with
          | true =>
            simp [loadModelBody, h1, h2, h3, hd] at hb
            subst hb
            simp [h3] at hm
          | false =>
            simp [loadModelBody, h1, h2, h3, hd] at hb
            subst hb
            simp [h3] at hm

/-- Claim C5: a failed load — loader exception, unsupported format, or a
loader returning no handle, all the cases in which the returned handle is
`none` — leaves the cache table and the metadata table exactly as they
were, so nothing is ever cached by a failing request. -/
theorem c5_failed_load_not_cached (env : Env) (st : State) (a : Args)
    (h : (load_model env st a).model = none) :
    (load_model env st a).state = st := by
  unfold load_model at h ⊢
  cases hb : loadModelBody env st a with
  | error e => simp [hb]
  | ok r =>
    rw [hb] at h
    exact loadModelBody_none_state env st a r hb h

/-- Witness for C5: a runtime whose checkpoint loader raises leaves the
fresh state untouched. -/
theorem c5_failed_load_not_cached_witness :
    (load_model envLoadFail State.init
      ⟨"model.ckpt", "auto", "auto", "auto", true, true, cfgEmpty, false⟩).state =
      State.init :=
  c5_failed_load_not_cached envLoadFail State.init _ (by decide)

/-- The success-path metadata always carries its `success` field. -/
theorem lookup_success_generate_metadata (env : Env) (p mt dv : String)
    (dt : Dtype) :
    (List.lookup "success" (_generate_metadata env p mt dv dt)).isSome = true := by
  unfold _generate_metadata
  by_cases h : dv = "cuda" <;> simp [h, List.lookup]

/-- Claim C6, counterexample: on the file-not-found path the metadata is
exactly the record with the single `error` entry — it carries no boolean
`success` field, refuting the claim for that path. -/
theorem c6_counterexample :
    List.lookup "success"
      (load_model envNoFile State.init
        ⟨"/no/such/model.ckpt", "auto", "auto", "auto", true, true, cfgEmpty, false⟩).metadata = none ∧
    (load_model envNoFile State.init
      ⟨"/no/such/model.ckpt", "auto", "auto", "auto", true, true, cfgEmpty, false⟩).metadata =
      [("error", MVal.vS "file_not_found")] := by
  refine ⟨?_, ?_⟩ <;> decide

/-- Claim C6 as amended: on the load-failure, cache-hit and success paths
the metadata carries a boolean `success` field (assuming the metadata-table
invariant, which holds of every reachable state), while the file-not-found
path returns exactly the `error: file_not_found` record with no `success`
field. -/
theorem c6_amended_success_field (env : Env) (st : State) (a : Args)
    (hinv : MetaInv st) :
    (List.lookup "success" (load_model env st a).metadata).isSome = true ∨
    (load_model env st a).metadata = [("error", MVal.vS "file_not_found")] := by
  cases h1 : (a.model_path == "" || !env.pathExists a.model_path) with
  | true =>
    right
    simp [load_model, loadModelBody, h1]
  | false =>
    cases h2 : (a.cache_enabled && !a.force_reload &&
        (List.lookup (_generate_cache_key a.model_path a.device a.precision a.model_config)
          st.model_cache).isSome) with
    | true =>
      have hsome : (List.lookup (_generate_cache_key a.model_path a.device a.precision
          a.model_config) st.model_cache).isSome = true := by
        have h2' := h2
        rw [Bool.and_eq_true] at h2'
        exact h2'.2
      obtain ⟨md, hmd, hsucc⟩ := hinv _ hsome
      left
      simpa [load_model, loadModelBody, h1, h2, hmd] using hsucc
    | false =>
      cases hd : _load_model_by_type env a.model_path
          (if a.model_type = "auto" then _detect_model_type env a.model_path else a.model_type)
          (_determine_device env a.device) (_determine_precision env a.precision)
          (parseConfig a.model_config) with
      | error e =>
        left
        simp [load_model, loadModelBody, h1, h2, hd, List.lookup]
      | ok p =>
        obtain ⟨model0, info0⟩ := p
        left
        simpa [load_model, loadModelBody, h1, h2, hd] using
          lookup_success_generate_metadata env a.model_path
            (if a.model_type = "auto" then _detect_model_type env a.model_path else a.model_type)
            (_determine_device env a.device) (_determine_precision env a.precision)

/-- Claim C4: whatever the environment does — any loader outcome including a
raised exception — `load_model` totally returns one of four structured
triples: the file-not-found triple, the cache-hit triple, the structured
failure triple (with the error and the success=false marker, state
untouched), or a loaded triple carrying the generated metadata.  No fault
escapes the boundary. -/
theorem c4_structured_response (env : Env) (st : State) (a : Args) :
    ((load_model env st a).model = none ∧
      (load_model env st a).model_info = "Model file not found: " ++ a.model_path ∧
      (load_model env st a).metadata = [("error", MVal.vS "file_not_found")] ∧
      (load_model env st a).state = st) ∨
    ((load_model env st a).model_info = "Model loaded from cache" ∧
      (load_model env st a).state = st) ∨
    (∃ e, (load_model env st a).model = none ∧
      (load_model env st a).model_info = "Failed to load model: " ++ e ∧
      (load_model env st a).metadata = [("error", MVal.vS e), ("success", MVal.vB false)] ∧
      (load_model env st a).state = st) ∨
    ((load_model env st a).metadata =
      _generate_metadata env a.model_path
        (if a.model_type = "auto" then _detect_model_type env a.model_path else a.model_type)
        (_determine_device env a.device) (_determine_precision env a.precision) ∧
      (load_model env st a).loaderCalls = 1) := by
  cases h1 : (a.model_path == "" || !env.pathExists a.model_path) with
  | true =>
    left
    simp [load_model, loadModelBody, h1]
  | false =>
    cases h2 : (a.cache_enabled && !a.force_reload &&
        (List.lookup (_generate_cache_key a.model_path a.device a.precision a.model_config)
          st.model_cache).isSome) with
    | true =>
      right; left
      simp [load_model, loadModelBody, h1, h2]
    | false =>
      cases hd : _load_model_by_type env a.model_path
          (if a.model_type = "auto" then _detect_model_type env a.model_path else a.model_type)
          (_determine_device env a.device) (_determine_precision env a.precision)
          (parseConfig a.model_config) with
      | error e =>
        right; right; left
        refine ⟨e, ?_, ?_, ?_, ?_⟩ <;> simp [load_model, loadModelBody, h1, h2, hd]
      | ok p =>
        obtain ⟨model0, info0⟩ := p
        right; right; right
        refine ⟨?_, ?_⟩ <;> simp [load_model, loadModelBody, h1, h2, hd]

/-- Claim C3: from a fresh engine instance, a request with caching on,
no forced reload, and a successful load, issued twice, drives the loader
dispatch exactly once — the repeat is a pure cache hit whose handle and
metadata equal the first response. -/
theorem c3_idempotent_cache_hit (env : Env) (a : Args) (m : Model)
    (hc : a.cache_enabled = true) (hf : a.force_reload = false)
    (h1 : (load_model env State.init a).model = some m) :
    (load_model env State.init a).loaderCalls = 1 ∧
    (load_model env (load_model env State.init a).state a).loaderCalls = 0 ∧
    (load_model env (load_model env State.init a).state a).model =
      (load_model env State.init a).model ∧
    (load_model env (load_model env State.init a).state a).metadata =
      (load_model env State.init a).metadata := by
  cases hp : (a.model_path == "" || !env.pathExists a.model_path) with
  | true =>
    exfalso
    simp [load_model, loadModelBody, hp] at h1
  | false =>
    cases hd : _load_model_by_type env a.model_path
        (if a.model_type = "auto" then _detect_model_type env a.model_path else a.model_type)
        (_determine_device env a.device) (_determine_precision env a.precision)
        (parseConfig a.model_config) with
    | error e =>
      exfalso
      simp [load_model, loadModelBody, hp, hd, State.init, List.lookup] at h1
    | ok p =>
      obtain ⟨model0, info0⟩ := p
      cases model0 with
      | none =>
        exfalso
        simp [load_model, loadModelBody, hp, hd, State.init, List.lookup] at h1
      | some m0 =>
        cases ho : a.optimize_memory with
        | true =>
          simp [load_model, loadModelBody, hp, hd, ho, hc, hf, State.init,
            List.lookup, dictInsert, lookup_dictInsert]
        | false =>
          simp [load_model, loadModelBody, hp, hd, ho, hc, hf, State.init,
            List.lookup, dictInsert, lookup_dictInsert]

/-- Witness for C3: the checkpoint request against the all-succeeding
runtime loads once and then replays from the cache. -/
theorem c3_idempotent_cache_hit_witness :
    (load_model envAllOk State.init argsC3).loaderCalls = 1 ∧
    (load_model envAllOk (load_model envAllOk State.init argsC3).state argsC3).loaderCalls = 0 ∧
    (load_model envAllOk (load_model envAllOk State.init argsC3).state argsC3).model =
      (load_model envAllOk State.init argsC3).model ∧
    (load_model envAllOk (load_model envAllOk State.init argsC3).state argsC3).metadata =
      (load_model envAllOk State.init argsC3).metadata :=
  c3_idempotent_cache_hit envAllOk argsC3 2 rfl rfl (by decide)

/-- Claim C8: the cache key is built from the requested (pre-resolution)
device preference: with cuda available, the explicit-`"cuda"` phrasing and
the `auto` phrasing resolve to the same device, yet their keys differ, the
second request misses the cache and drives the loader again, and the cache
ends with two distinct entries. -/
theorem c8_key_from_requested_preferences (env : Env) (m : Model) (info : String)
    (hcuda : env.cudaAvailable = true)
    (hex : env.pathExists "model.ckpt" = true)
    (hload : env.loadCheckpoint "model.ckpt" "cuda" Dtype.float16 =
      Except.ok (some m, info)) :
    _determine_device env "cuda" = _determine_device env "auto" ∧
    _generate_cache_key "model.ckpt" "cuda" "auto" cfgEmpty ≠
      _generate_cache_key "model.ckpt" "auto" "auto" cfgEmpty ∧
    (load_model env State.init argsCudaExplicit).loaderCalls = 1 ∧
    (load_model env (load_model env State.init argsCudaExplicit).state
      argsDeviceAuto).loaderCalls = 1 ∧
    (load_model env (load_model env State.init argsCudaExplicit).state
      argsDeviceAuto).state.model_cache.length = 2 := by
  have hp1 : ¬ (_generate_cache_key "model.ckpt" "cuda" "auto" cfgEmpty =
      _generate_cache_key "model.ckpt" "auto" "auto" cfgEmpty) := by decide
  have hb1 : (_generate_cache_key "model.ckpt" "auto" "auto" cfgEmpty ==
      _generate_cache_key "model.ckpt" "cuda" "auto" cfgEmpty) = false := by decide
  refine ⟨?_, hp1, ?_, ?_, ?_⟩
  · simp [_determine_device, hcuda]
  · simp [load_model, loadModelBody, argsCudaExplicit, State.init, List.lookup,
      hex, hcuda, hload, _determine_device, _determine_precision, _load_model_by_type]
  · simp [load_model, loadModelBody, argsCudaExplicit, argsDeviceAuto, State.init,
      List.lookup, dictInsert, hex, hcuda, hload, hp1, hb1,
      _determine_device, _determine_precision, _load_model_by_type]
  · simp [load_model, loadModelBody, argsCudaExplicit, argsDeviceAuto, State.init,
      List.lookup, dictInsert, hex, hcuda, hload, hp1, hb1,
      _determine_device, _determine_precision, _load_model_by_type]

/-- Witness for C8 against the all-succeeding cuda runtime. -/
theorem c8_key_from_requested_preferences_witness :
    _determine_device envAllOk "cuda" = _determine_device envAllOk "auto" ∧
    _generate_cache_key "model.ckpt" "cuda" "auto" cfgEmpty ≠
      _generate_cache_key "model.ckpt" "auto" "auto" cfgEmpty ∧
    (load_model envAllOk State.init argsCudaExplicit).loaderCalls = 1 ∧
    (load_model envAllOk (load_model envAllOk State.init argsCudaExplicit).state
      argsDeviceAuto).loaderCalls = 1 ∧
    (load_model envAllOk (load_model envAllOk State.init argsCudaExplicit).state
      argsDeviceAuto).state.model_cache.length = 2 :=
  c8_key_from_requested_preferences envAllOk 2 "Checkpoint loaded with 5 keys" rfl rfl rfl

/-- Witness for the amended C6 at a concrete environment and request. -/
theorem c6_amended_success_field_witness :
    (List.lookup "success"
      (load_model envNoFile State.init
        ⟨"/no/such/model.ckpt", "auto", "auto", "auto", true, true, cfgEmpty, false⟩).metadata).isSome = true ∨
    (load_model envNoFile State.init
      ⟨"/no/such/model.ckpt", "auto", "auto", "auto", true, true, cfgEmpty, false⟩).metadata =
      [("error", MVal.vS "file_not_found")] :=
  c6_amended_success_field envNoFile State.init _
    (fun k h => by simp [State.init, List.lookup] at h)

end ComfyModelNode
